import Mathlib

/-!
Shallow embedding of `src/server.js` (caliphattendence backend): a record
store over one JSON document with three collections (classes, students,
attendance), REST-style mutation handlers, a websocket broadcast fan-out,
and a read-side summary projection.

Each Express route handler is modelled as a pure function from the durable
document (what `readData` would return), the request payload, a timestamp
string `now` (standing for `new Date().toISOString()`), and a `writeOk`
flag (whether `fs.writeFileSync` inside `writeData` succeeds) to an
`Outcome`: the durable document afterwards, the HTTP response, the list of
broadcast messages emitted, and whether a write was attempted.  JS falsy
checks on request-body strings (`!id`) are modelled as equality with `""`
(covering both a missing field and an empty string); optional fields use
`x || null` / `x || now` fallbacks, modelled the same way.
-/

set_option autoImplicit false

namespace CaliphAttendance

/-- A class record as stored in `data.classes`. -/
structure Class where
  id : String
  name : String
  createdAt : String
  updatedAt : String
deriving DecidableEq, Repr

/-- A student record as stored in `data.students` (no `createdAt`). -/
structure Student where
  id : String
  name : String
  rollNumber : Option String
  className : String
  updatedAt : String
deriving DecidableEq, Repr

/-- An attendance record as stored in `data.attendance`. -/
structure Att where
  id : String
  studentId : String
  studentName : String
  className : String
  prayer : String
  date : String
  status : String
  reason : Option String
  timestamp : String
  updatedAt : String
deriving DecidableEq, Repr

/-- The single persisted document `\x7b classes, students, attendance \x7d`. -/
structure Document where
  classes : List Class
  students : List Student
  attendance : List Att
deriving DecidableEq, Repr

/-- Request body for `POST /api/classes`; `""` models a missing/empty field. -/
structure ClassPayload where
  id : String
  name : String
deriving DecidableEq, Repr

/-- Request body for `POST /api/students`. -/
structure StudentPayload where
  id : String
  name : String
  rollNumber : String
  className : String
deriving DecidableEq, Repr

/-- Request body for `POST /api/attendance`. -/
structure AttPayload where
  id : String
  studentId : String
  studentName : String
  className : String
  prayer : String
  date : String
  status : String
  reason : String
  timestamp : String
deriving DecidableEq, Repr

/-- Websocket messages passed to `broadcast`. -/
inductive Message where
  | connected (message : String)
  | classUpdated (data : Option Class) (action : String)
  | classDeleted (id : String)
  | studentUpdated (data : Option Student) (action : String)
  | studentDeleted (id : String)
  | attendanceUpdated (data : Option Att) (action : String)
  | attendanceDeleted (id : String)
deriving DecidableEq, Repr

/-- HTTP responses the handlers produce (`res.json(...)` bodies). -/
inductive Response where
  | jsonClass (c : Option Class)
  | jsonStudent (s : Option Student)
  | jsonAttendance (a : Option Att)
  | jsonSuccess
  | badRequest (error : String)
deriving DecidableEq, Repr

/-- Result of running one mutating route handler. -/
structure Outcome where
  durable : Document
  response : Response
  broadcasts : List Message
  writeAttempted : Bool
deriving DecidableEq, Repr

/-- `Array.prototype.findIndex` returning the index together with the element
found there (the source reads `data.classes[existingIndex]` right after). -/
def findIndexWith {α : Type} (p : α → Bool) : List α → Option (Nat × α)
  | [] => none
  | x :: xs => if p x then some (0, x) else (findIndexWith p xs).map (fun ia => (ia.1 + 1, ia.2))

/-- Handler for `POST /api/classes`. -/
def handlePostClasses (doc : Document) (b : ClassPayload) (now : String) (writeOk : Bool) :
    Outcome :=
  if b.id = "" ∨ b.name = "" then
    ⟨doc, .badRequest "id and name are required", [], false⟩
  else
    match findIndexWith (fun c => c.id == b.id) doc.classes with
    | some (i, old) =>
      let updated : Class :=
        ⟨b.id, b.name, if old.createdAt = "" then now else old.createdAt, now⟩
      let data : Document := { doc with classes := doc.classes.set i updated }
      let newClass := data.classes.find? (fun c => c.id == b.id)
      ⟨if writeOk then data else doc, .jsonClass newClass,
        [.classUpdated newClass "updated"], true⟩
    | none =>
      let created : Class := ⟨b.id, b.name, now, now⟩
      let data : Document := { doc with classes := doc.classes ++ [created] }
      let newClass := data.classes.find? (fun c => c.id == b.id)
      ⟨if writeOk then data else doc, .jsonClass newClass,
        [.classUpdated newClass "created"], true⟩

/-- Handler for `DELETE /api/classes/:id`. -/
def handleDeleteClasses (doc : Document) (id : String) (writeOk : Bool) : Outcome :=
  let classToDelete := doc.classes.find? (fun c => c.id == id)
  let classes := doc.classes.filter (fun c => c.id != id)
  let students :=
    match classToDelete with
    | some c => doc.students.filter (fun s => s.className != c.name)
    | none => doc.students
  let data : Document := { classes := classes, students := students, attendance := doc.attendance }
  ⟨if writeOk then data else doc, .jsonSuccess, [.classDeleted id], true⟩

/-- Handler for `POST /api/students`. -/
def handlePostStudents (doc : Document) (b : StudentPayload) (now : String) (writeOk : Bool) :
    Outcome :=
  if b.id = "" ∨ b.name = "" ∨ b.className = "" then
    ⟨doc, .badRequest "id, name, and className are required", [], false⟩
  else
    let record : Student :=
      ⟨b.id, b.name, if b.rollNumber = "" then none else some b.rollNumber, b.className, now⟩
    match findIndexWith (fun s => s.id == b.id) doc.students with
    | some (i, _) =>
      let data : Document := { doc with students := doc.students.set i record }
      let newStudent := data.students.find? (fun s => s.id == b.id)
      ⟨if writeOk then data else doc, .jsonStudent newStudent,
        [.studentUpdated newStudent "updated"], true⟩
    | none =>
      let data : Document := { doc with students := doc.students ++ [record] }
      let newStudent := data.students.find? (fun s => s.id == b.id)
      ⟨if writeOk then data else doc, .jsonStudent newStudent,
        [.studentUpdated newStudent "created"], true⟩

/-- Handler for `DELETE /api/students/:id`. -/
def handleDeleteStudents (doc : Document) (id : String) (writeOk : Bool) : Outcome :=
  let students := doc.students.filter (fun s => s.id != id)
  let attendance := doc.attendance.filter (fun a => a.studentId != id)
  let data : Document := { classes := doc.classes, students := students, attendance := attendance }
  ⟨if writeOk then data else doc, .jsonSuccess, [.studentDeleted id], true⟩

/-- Handler for `POST /api/attendance`. -/
def handlePostAttendance (doc : Document) (b : AttPayload) (now : String) (writeOk : Bool) :
    Outcome :=
  if b.id = "" ∨ b.studentId = "" ∨ b.studentName = "" ∨ b.className = "" ∨
      b.prayer = "" ∨ b.date = "" ∨ b.status = "" then
    ⟨doc, .badRequest "id, studentId, studentName, className, prayer, date, and status are required",
      [], false⟩
  else
    let record : Att :=
      ⟨b.id, b.studentId, b.studentName, b.className, b.prayer, b.date, b.status,
        if b.reason = "" then none else some b.reason,
        if b.timestamp = "" then now else b.timestamp, now⟩
    match findIndexWith (fun a => a.id == b.id) doc.attendance with
    | some (i, _) =>
      let data : Document := { doc with attendance := doc.attendance.set i record }
      let attendanceRecord := data.attendance.find? (fun a => a.id == b.id)
      ⟨if writeOk then data else doc, .jsonAttendance attendanceRecord,
        [.attendanceUpdated attendanceRecord "updated"], true⟩
    | none =>
      let data : Document := { doc with attendance := doc.attendance ++ [record] }
      let attendanceRecord := data.attendance.find? (fun a => a.id == b.id)
      ⟨if writeOk then data else doc, .jsonAttendance attendanceRecord,
        [.attendanceUpdated attendanceRecord "created"], true⟩

/-- Handler for `DELETE /api/attendance/:id`. -/
def handleDeleteAttendance (doc : Document) (id : String) (writeOk : Bool) : Outcome :=
  let attendance := doc.attendance.filter (fun a => a.id != id)
  let data : Document := { classes := doc.classes, students := doc.students, attendance := attendance }
  ⟨if writeOk then data else doc, .jsonSuccess, [.attendanceDeleted id], true⟩

/-- One optional query-string filter (`if (q) list = list.filter(p(q))`);
an absent parameter is `none`, `?q=` gives `some ""` which is falsy in JS. -/
def queryFilter (q : Option String) (p : String → Att → Bool) (l : List Att) : List Att :=
  match q with
  | none => l
  | some s => if s = "" then l else l.filter (p s)

/-- Handler for `GET /api/attendance` with its four optional filters. -/
def handleGetAttendance (doc : Document) (date className prayer studentId : Option String) :
    List Att :=
  let attendance := doc.attendance
  let attendance := queryFilter date (fun s a => a.date == s) attendance
  let attendance := queryFilter className (fun s a => a.className == s) attendance
  let attendance := queryFilter prayer (fun s a => a.prayer == s) attendance
  let attendance := queryFilter studentId (fun s a => a.studentId == s) attendance
  attendance

/-- The summary object: a key-insertion-ordered map from date to a
key-insertion-ordered map from prayer to the records pushed there, modelling
the plain JS objects built by `GET /api/summary`. -/
abbrev Summary : Type := List (String × List (String × List Att))

/-- `obj[k] = f(obj[k] ?? dflt)` on an insertion-ordered object: update the
entry in place if the key is present, append a fresh entry otherwise. -/
def updateAssoc {β : Type} (k : String) (dflt : β) (f : β → β) :
    List (String × β) → List (String × β)
  | [] => [(k, f dflt)]
  | (k', v) :: rest => if k' = k then (k', f v) :: rest else (k', v) :: updateAssoc k dflt f rest

/-- One iteration of the `attendance.forEach(record => ...)` loop in
`GET /api/summary`: ensure `summary[date]` and `summary[date][prayer]`
exist, then push the record. -/
def addToSummary (s : Summary) (r : Att) : Summary :=
  updateAssoc r.date [] (fun prayers => updateAssoc r.prayer [] (fun recs => recs ++ [r]) prayers) s

/-- The grouping loop of `GET /api/summary` over a (possibly pre-filtered)
attendance list. -/
def summarize (l : List Att) : Summary := l.foldl addToSummary []

/-- Handler for `GET /api/summary` with its two optional filters. -/
def handleGetSummary (doc : Document) (date className : Option String) : Summary :=
  let attendance := doc.attendance
  let attendance := queryFilter date (fun s a => a.date == s) attendance
  let attendance := queryFilter className (fun s a => a.className == s) attendance
  summarize attendance

/-- A connected websocket client: its identity and its `readyState`
(`1` is `WebSocket.OPEN`). -/
structure ClientH where
  cid : Nat
  readyState : Nat
deriving DecidableEq, Repr

/-- `JSON.stringify` on a class record. -/
def serializeClass (c : Class) : String :=
  "\x7b\"id\":\"" ++ c.id ++ "\",\"name\":\"" ++ c.name ++ "\",\"createdAt\":\"" ++
    c.createdAt ++ "\",\"updatedAt\":\"" ++ c.updatedAt ++ "\"\x7d"

/-- `JSON.stringify` on a student record. -/
def serializeStudent (s : Student) : String :=
  "\x7b\"id\":\"" ++ s.id ++ "\",\"name\":\"" ++ s.name ++ "\",\"rollNumber\":" ++
    (match s.rollNumber with
     | some r => "\"" ++ r ++ "\""
     | none => "null") ++
    ",\"className\":\"" ++ s.className ++ "\",\"updatedAt\":\"" ++ s.updatedAt ++ "\"\x7d"

/-- `JSON.stringify` on an attendance record. -/
def serializeAtt (a : Att) : String :=
  "\x7b\"id\":\"" ++ a.id ++ "\",\"studentId\":\"" ++ a.studentId ++
    "\",\"studentName\":\"" ++ a.studentName ++ "\",\"className\":\"" ++ a.className ++
    "\",\"prayer\":\"" ++ a.prayer ++ "\",\"date\":\"" ++ a.date ++
    "\",\"status\":\"" ++ a.status ++ "\",\"reason\":" ++
    (match a.reason with
     | some r => "\"" ++ r ++ "\""
     | none => "null") ++
    ",\"timestamp\":\"" ++ a.timestamp ++ "\",\"updatedAt\":\"" ++ a.updatedAt ++ "\"\x7d"

/-- An optional entity serializes to `null` when absent. -/
def serializeOpt {α : Type} (f : α → String) : Option α → String
  | some a => f a
  | none => "null"

/-- `JSON.stringify(message)` on the messages `broadcast` is given. -/
def serialize : Message → String
  | .connected m => "\x7b\"type\":\"connected\",\"message\":\"" ++ m ++ "\"\x7d"
  | .classUpdated d act =>
    "\x7b\"type\":\"class_updated\",\"data\":" ++ serializeOpt serializeClass d ++
      ",\"action\":\"" ++ act ++ "\"\x7d"
  | .classDeleted i =>
    "\x7b\"type\":\"class_deleted\",\"data\":\x7b\"id\":\"" ++ i ++ "\"\x7d,\"action\":\"deleted\"\x7d"
  | .studentUpdated d act =>
    "\x7b\"type\":\"student_updated\",\"data\":" ++ serializeOpt serializeStudent d ++
      ",\"action\":\"" ++ act ++ "\"\x7d"
  | .studentDeleted i =>
    "\x7b\"type\":\"student_deleted\",\"data\":\x7b\"id\":\"" ++ i ++ "\"\x7d,\"action\":\"deleted\"\x7d"
  | .attendanceUpdated d act =>
    "\x7b\"type\":\"attendance_updated\",\"data\":" ++ serializeOpt serializeAtt d ++
      ",\"action\":\"" ++ act ++ "\"\x7d"
  | .attendanceDeleted i =>
    "\x7b\"type\":\"attendance_deleted\",\"data\":\x7b\"id\":\"" ++ i ++ "\"\x7d,\"action\":\"deleted\"\x7d"

/-- The `broadcast` function: serialize the message once, send the same
string to every client whose `readyState` is `OPEN`.  The client set is
state that `broadcast` reads but never mutates, so it is threaded through
unchanged; the second component lists the deliveries made (client id paired
with the payload sent). -/
def broadcast (clients : List ClientH) (message : Message) :
    List ClientH × List (Nat × String) :=
  let data := serialize message
  (clients, (clients.filter (fun c => c.readyState == 1)).map (fun c => (c.cid, data)))

/-- The `ws.on('close')` handler: `clients.delete(ws)`. -/
def onClose (clients : List ClientH) (ws : ClientH) : List ClientH :=
  clients.erase ws

/-! ### Lemmas about `findIndexWith` (the `findIndex` / replace-or-append pattern) -/

theorem findIndexWith_eq_none {α : Type} {p : α → Bool} :
    ∀ {l : List α}, findIndexWith p l = none → ∀ x ∈ l, p x = false := by
  intro l
  induction l with
  | nil => intro _ x hx; exact absurd hx (List.not_mem_nil x)
  | cons a t ih =>
    intro h x hx
    by_cases hpa : p a
    · simp [findIndexWith, hpa] at h
    · rw [findIndexWith, if_neg hpa, Option.map_eq_none'] at h
      rcases List.mem_cons.mp hx with rfl | hx'
      · simpa using hpa
      · exact ih h x hx'

theorem findIndexWith_filter_eq_nil {α : Type} {p : α → Bool} {l : List α}
    (h : findIndexWith p l = none) : l.filter p = [] := by
  rw [List.filter_eq_nil_iff]
  intro a ha
  simp [findIndexWith_eq_none h a ha]

theorem findIndexWith_eq_some {α : Type} {p : α → Bool} :
    ∀ {l : List α} {i : Nat} {x : α}, findIndexWith p l = some (i, x) → x ∈ l ∧ p x = true := by
  intro l
  induction l with
  | nil => intro i x h; simp [findIndexWith] at h
  | cons a t ih =>
    intro i x h
    by_cases hpa : p a
    · rw [findIndexWith, if_pos hpa] at h
      obtain ⟨rfl, rfl⟩ : (0, a) = (i, x) := Option.some_injective _ h
      exact ⟨List.mem_cons_self a t, hpa⟩
    · rw [findIndexWith, if_neg hpa, Option.map_eq_some'] at h
      obtain ⟨⟨i', x'⟩, hfi, heq⟩ := h
      obtain ⟨-, rfl⟩ : i' + 1 = i ∧ x' = x := Prod.mk.injEq .. ▸ Prod.mk.inj heq
      exact ⟨List.mem_cons_of_mem a (ih hfi).1, (ih hfi).2⟩

theorem findIndexWith_set_filter_length {α : Type} {p : α → Bool} {y : α} (hy : p y = true) :
    ∀ {l : List α} {i : Nat} {x : α}, findIndexWith p l = some (i, x) →
      ((l.set i y).filter p).length = (l.filter p).length := by
  intro l
  induction l with
  | nil => intro i x h; simp [findIndexWith] at h
  | cons a t ih =>
    intro i x h
    by_cases hpa : p a
    · rw [findIndexWith, if_pos hpa] at h
      obtain ⟨rfl, rfl⟩ : (0, a) = (i, x) := Option.some_injective _ h
      simp [List.filter_cons, hpa, hy]
    · rw [findIndexWith, if_neg hpa, Option.map_eq_some'] at h
      obtain ⟨⟨i', x'⟩, hfi, heq⟩ := h
      obtain ⟨rfl, rfl⟩ : i' + 1 = i ∧ x' = x := Prod.mk.injEq .. ▸ Prod.mk.inj heq
      simp only [List.set_cons_succ, List.filter_cons, hpa]
      simpa using ih hfi

theorem findIndexWith_find?_set {α : Type} {p : α → Bool} {y : α} (hy : p y = true) :
    ∀ {l : List α} {i : Nat} {x : α}, findIndexWith p l = some (i, x) →
      (l.set i y).find? p = some y := by
  intro l
  induction l with
  | nil => intro i x h; simp [findIndexWith] at h
  | cons a t ih =>
    intro i x h
    by_cases hpa : p a
    · rw [findIndexWith, if_pos hpa] at h
      obtain ⟨rfl, rfl⟩ : (0, a) = (i, x) := Option.some_injective _ h
      simp [List.find?_cons, hy]
    · rw [findIndexWith, if_neg hpa, Option.map_eq_some'] at h
      obtain ⟨⟨i', x'⟩, hfi, heq⟩ := h
      obtain ⟨rfl, rfl⟩ : i' + 1 = i ∧ x' = x := Prod.mk.injEq .. ▸ Prod.mk.inj heq
      rw [List.set_cons_succ]
      rw [List.find?_cons_of_neg _ hpa]
      exact ih hfi

theorem findIndexWith_find?_append {α : Type} {p : α → Bool} {y : α} (hy : p y = true)
    {l : List α} (h : findIndexWith p l = none) : (l ++ [y]).find? p = some y := by
  induction l with
  | nil => simp [List.find?_cons, hy]
  | cons a t ih =>
    have hpa : p a = false := findIndexWith_eq_none h a (List.mem_cons_self a t)
    rw [List.cons_append, List.find?_cons_of_neg _ (by simp [hpa])]
    refine ih ?_
    rw [findIndexWith, if_neg (by simp [hpa]), Option.map_eq_none'] at h
    exact h

/-- The class-upsert handler leaves exactly one class with the upserted id
whenever the incoming document had at most one (in particular on any document
whose ids are unique, the documented invariant). -/
theorem handlePostClasses_filter_length (doc : Document) (b : ClassPayload) (now : String)
    (hid : b.id ≠ "") (hname : b.name ≠ "")
    (huniq : (doc.classes.filter (fun c => c.id == b.id)).length ≤ 1) :
    ((handlePostClasses doc b now true).durable.classes.filter (fun c => c.id == b.id)).length
      = 1 := by
  rw [handlePostClasses, if_neg (by simp [hid, hname])]
  cases hfi : findIndexWith (fun c => c.id == b.id) doc.classes with
  | none =>
    show (List.filter (fun c => c.id == b.id)
        (doc.classes ++ [⟨b.id, b.name, now, now⟩])).length = 1
    rw [List.filter_append, findIndexWith_filter_eq_nil hfi]
    simp
  | some ix =>
    obtain ⟨i, old⟩ := ix
    show (List.filter (fun c => c.id == b.id) (doc.classes.set i
        ⟨b.id, b.name, if old.createdAt = "" then now else old.createdAt, now⟩)).length = 1
    have hset := findIndexWith_set_filter_length (p := fun c => c.id == b.id)
      (y := (⟨b.id, b.name, if old.createdAt = "" then now else old.createdAt, now⟩ : Class))
      (by simp) hfi
    rw [hset]
    have hmem := findIndexWith_eq_some hfi
    have hpos : 0 < (doc.classes.filter (fun c => c.id == b.id)).length :=
      List.length_pos.mpr (List.ne_nil_of_mem (List.mem_filter.mpr ⟨hmem.1, hmem.2⟩))
    omega

/-- C1: for a class payload with non-empty id and name, on a document holding
at most one class with that id (all with a non-empty `createdAt`), the upsert
leaves exactly one class with that id; an existing class is replaced in place
at its index keeping its `createdAt` and getting the fresh `updatedAt`, a
missing one is appended with fresh timestamps; a second upsert with the same
id and a different name again leaves exactly one such class. -/
theorem upsertClass_idempotent (doc : Document) (b b₂ : ClassPayload) (now now₂ : String)
    (hid : b.id ≠ "") (hname : b.name ≠ "")
    (huniq : (doc.classes.filter (fun c => c.id == b.id)).length ≤ 1)
    (hts : ∀ c ∈ doc.classes, c.createdAt ≠ "")
    (hb₂id : b₂.id = b.id) (hb₂name : b₂.name ≠ "") :
    ((handlePostClasses doc b now true).durable.classes.filter
        (fun c => c.id == b.id)).length = 1
    ∧ (match findIndexWith (fun c => c.id == b.id) doc.classes with
       | some (i, old) => (handlePostClasses doc b now true).durable.classes
           = doc.classes.set i ⟨b.id, b.name, old.createdAt, now⟩
       | none => (handlePostClasses doc b now true).durable.classes
           = doc.classes ++ [⟨b.id, b.name, now, now⟩])
    ∧ ((handlePostClasses (handlePostClasses doc b now true).durable b₂ now₂
          true).durable.classes.filter (fun c => c.id == b.id)).length = 1 := by
  have h1 := handlePostClasses_filter_length doc b now hid hname huniq
  refine ⟨h1, ?_, ?_⟩
  · rw [handlePostClasses, if_neg (by simp [hid, hname])]
    cases hfi : findIndexWith (fun c => c.id == b.id) doc.classes with
    | none => simp
    | some ix =>
      obtain ⟨i, old⟩ := ix
      have hold : old.createdAt ≠ "" := hts old (findIndexWith_eq_some hfi).1
      simp [hold]
  · have h2 := handlePostClasses_filter_length (handlePostClasses doc b now true).durable b₂ now₂
      (by rw [hb₂id]; exact hid) hb₂name (by rw [hb₂id]; exact h1.le)
    rw [hb₂id] at h2
    exact h2

/-- Witness for C1 at a concrete document and payloads. -/
theorem upsertClass_idempotent_witness :
    (⟨"c1", "Grade 6"⟩ : ClassPayload).id ≠ ""
    ∧ (⟨"c1", "Grade 6"⟩ : ClassPayload).name ≠ ""
    ∧ ((⟨[⟨"c1", "Grade 5", "t0", "t0"⟩], [], []⟩ : Document).classes.filter
        (fun c => c.id == (⟨"c1", "Grade 6"⟩ : ClassPayload).id)).length ≤ 1
    ∧ (∀ c ∈ (⟨[⟨"c1", "Grade 5", "t0", "t0"⟩], [], []⟩ : Document).classes, c.createdAt ≠ "")
    ∧ (⟨"c1", "Grade 7"⟩ : ClassPayload).id = (⟨"c1", "Grade 6"⟩ : ClassPayload).id
    ∧ (⟨"c1", "Grade 7"⟩ : ClassPayload).name ≠ ""
    ∧ (((handlePostClasses ⟨[⟨"c1", "Grade 5", "t0", "t0"⟩], [], []⟩ ⟨"c1", "Grade 6"⟩ "t1"
          true).durable.classes.filter
            (fun c => c.id == (⟨"c1", "Grade 6"⟩ : ClassPayload).id)).length = 1
      ∧ (match findIndexWith (fun c => c.id == (⟨"c1", "Grade 6"⟩ : ClassPayload).id)
            (⟨[⟨"c1", "Grade 5", "t0", "t0"⟩], [], []⟩ : Document).classes with
         | some (i, old) => (handlePostClasses ⟨[⟨"c1", "Grade 5", "t0", "t0"⟩], [], []⟩
               ⟨"c1", "Grade 6"⟩ "t1" true).durable.classes
             = (⟨[⟨"c1", "Grade 5", "t0", "t0"⟩], [], []⟩ : Document).classes.set i
                 ⟨(⟨"c1", "Grade 6"⟩ : ClassPayload).id, (⟨"c1", "Grade 6"⟩ : ClassPayload).name,
                   old.createdAt, "t1"⟩
         | none => (handlePostClasses ⟨[⟨"c1", "Grade 5", "t0", "t0"⟩], [], []⟩
               ⟨"c1", "Grade 6"⟩ "t1" true).durable.classes
             = (⟨[⟨"c1", "Grade 5", "t0", "t0"⟩], [], []⟩ : Document).classes
                 ++ [⟨(⟨"c1", "Grade 6"⟩ : ClassPayload).id,
                      (⟨"c1", "Grade 6"⟩ : ClassPayload).name, "t1", "t1"⟩])
      ∧ ((handlePostClasses (handlePostClasses ⟨[⟨"c1", "Grade 5", "t0", "t0"⟩], [], []⟩
            ⟨"c1", "Grade 6"⟩ "t1" true).durable ⟨"c1", "Grade 7"⟩ "t2"
            true).durable.classes.filter
              (fun c => c.id == (⟨"c1", "Grade 6"⟩ : ClassPayload).id)).length = 1) :=
  ⟨by decide, by decide, by decide, by decide, by decide, by decide,
    upsertClass_idempotent ⟨[⟨"c1", "Grade 5", "t0", "t0"⟩], [], []⟩ ⟨"c1", "Grade 6"⟩
      ⟨"c1", "Grade 7"⟩ "t1" "t2" (by decide) (by decide) (by decide) (by decide)
      (by decide) (by decide)⟩

/-- C2: deleting a class (looked up by id, first match) removes, in the same
write, exactly the students whose `className` equals that class's `name`:
the surviving student list is the filter keeping the other students, every
same-named student is gone, and every differently-named student survives. -/
theorem deleteClass_student_cascade (doc : Document) (id : String) (c : Class)
    (h : doc.classes.find? (fun k => k.id == id) = some c) :
    (handleDeleteClasses doc id true).durable.students
        = doc.students.filter (fun s => s.className != c.name)
    ∧ (∀ s ∈ doc.students, s.className = c.name →
        s ∉ (handleDeleteClasses doc id true).durable.students)
    ∧ (∀ s ∈ doc.students, s.className ≠ c.name →
        s ∈ (handleDeleteClasses doc id true).durable.students) := by
  have hst : (handleDeleteClasses doc id true).durable.students
      = doc.students.filter (fun s => s.className != c.name) := by
    rw [handleDeleteClasses, h]
    rfl
  refine ⟨hst, ?_, ?_⟩
  · intro s hs heq hmem
    rw [hst] at hmem
    have := (List.mem_filter.mp hmem).2
    simp [heq] at this
  · intro s hs hne
    rw [hst]
    exact List.mem_filter.mpr ⟨hs, by simpa using hne⟩

/-- Witness for C2 at a concrete document. -/
theorem deleteClass_student_cascade_witness :
    ((⟨[⟨"c1", "Grade 5", "t0", "t0"⟩],
        [⟨"s1", "Amina", none, "Grade 5", "t0"⟩, ⟨"s2", "Bilal", none, "Grade 6", "t0"⟩],
        []⟩ : Document).classes.find? (fun k => k.id == "c1")
      = some ⟨"c1", "Grade 5", "t0", "t0"⟩)
    ∧ ((handleDeleteClasses ⟨[⟨"c1", "Grade 5", "t0", "t0"⟩],
          [⟨"s1", "Amina", none, "Grade 5", "t0"⟩, ⟨"s2", "Bilal", none, "Grade 6", "t0"⟩],
          []⟩ "c1" true).durable.students
        = (⟨[⟨"c1", "Grade 5", "t0", "t0"⟩],
            [⟨"s1", "Amina", none, "Grade 5", "t0"⟩, ⟨"s2", "Bilal", none, "Grade 6", "t0"⟩],
            []⟩ : Document).students.filter
              (fun s => s.className != (⟨"c1", "Grade 5", "t0", "t0"⟩ : Class).name)
      ∧ (∀ s ∈ (⟨[⟨"c1", "Grade 5", "t0", "t0"⟩],
            [⟨"s1", "Amina", none, "Grade 5", "t0"⟩, ⟨"s2", "Bilal", none, "Grade 6", "t0"⟩],
            []⟩ : Document).students, s.className = (⟨"c1", "Grade 5", "t0", "t0"⟩ : Class).name →
          s ∉ (handleDeleteClasses ⟨[⟨"c1", "Grade 5", "t0", "t0"⟩],
              [⟨"s1", "Amina", none, "Grade 5", "t0"⟩, ⟨"s2", "Bilal", none, "Grade 6", "t0"⟩],
              []⟩ "c1" true).durable.students)
      ∧ (∀ s ∈ (⟨[⟨"c1", "Grade 5", "t0", "t0"⟩],
            [⟨"s1", "Amina", none, "Grade 5", "t0"⟩, ⟨"s2", "Bilal", none, "Grade 6", "t0"⟩],
            []⟩ : Document).students, s.className ≠ (⟨"c1", "Grade 5", "t0", "t0"⟩ : Class).name →
          s ∈ (handleDeleteClasses ⟨[⟨"c1", "Grade 5", "t0", "t0"⟩],
              [⟨"s1", "Amina", none, "Grade 5", "t0"⟩, ⟨"s2", "Bilal", none, "Grade 6", "t0"⟩],
              []⟩ "c1" true).durable.students)) :=
  ⟨by decide,
    deleteClass_student_cascade ⟨[⟨"c1", "Grade 5", "t0", "t0"⟩],
      [⟨"s1", "Amina", none, "Grade 5", "t0"⟩, ⟨"s2", "Bilal", none, "Grade 6", "t0"⟩], []⟩
      "c1" ⟨"c1", "Grade 5", "t0", "t0"⟩ (by decide)⟩

/-- C3: deleting a student removes, in the same write, exactly the attendance
records whose `studentId` is the deleted id: the surviving attendance list is
the filter keeping the others, order preserved (a sublist of the original),
and the student list is filtered by id in the same outcome. -/
theorem deleteStudent_attendance_cascade (doc : Document) (sid : String) :
    (handleDeleteStudents doc sid true).durable.attendance
        = doc.attendance.filter (fun a => a.studentId != sid)
    ∧ (∀ a ∈ doc.attendance, a.studentId ≠ sid →
        a ∈ (handleDeleteStudents doc sid true).durable.attendance)
    ∧ (∀ a ∈ (handleDeleteStudents doc sid true).durable.attendance,
        a ∈ doc.attendance ∧ a.studentId ≠ sid)
    ∧ List.Sublist (handleDeleteStudents doc sid true).durable.attendance doc.attendance
    ∧ (handleDeleteStudents doc sid true).durable.students
        = doc.students.filter (fun s => s.id != sid) := by
  have hat : (handleDeleteStudents doc sid true).durable.attendance
      = doc.attendance.filter (fun a => a.studentId != sid) := rfl
  refine ⟨hat, ?_, ?_, ?_, rfl⟩
  · intro a ha hne
    rw [hat]
    exact List.mem_filter.mpr ⟨ha, by simpa using hne⟩
  · intro a ha
    rw [hat] at ha
    exact ⟨(List.mem_filter.mp ha).1, by simpa using (List.mem_filter.mp ha).2⟩
  · rw [hat]
    exact List.filter_sublist doc.attendance

/-- C4: deleting a class never touches the attendance collection, whatever
the document and whether or not the durable write succeeds: the cascade is
two-hop only. -/
theorem deleteClass_attendance_frame (doc : Document) (id : String) (writeOk : Bool) :
    (handleDeleteClasses doc id writeOk).durable.attendance = doc.attendance
    ∧ ∀ a ∈ doc.attendance, a ∈ (handleDeleteClasses doc id writeOk).durable.attendance := by
  have h : (handleDeleteClasses doc id writeOk).durable.attendance = doc.attendance := by
    cases writeOk <;> rfl
  exact ⟨h, fun a ha => h ▸ ha⟩

/-- C7: an upsert payload with any required field missing or empty (JS falsy)
is rejected with the route's validation message naming the requirements; the
document is untouched, no write is attempted, and no broadcast is emitted —
for each of the three entity kinds. -/
theorem upsert_validation_rejects (doc : Document) (now : String) (writeOk : Bool)
    (pc : ClassPayload) (ps : StudentPayload) (pa : AttPayload)
    (hc : pc.id = "" ∨ pc.name = "")
    (hs : ps.id = "" ∨ ps.name = "" ∨ ps.className = "")
    (ha : pa.id = "" ∨ pa.studentId = "" ∨ pa.studentName = "" ∨ pa.className = "" ∨
      pa.prayer = "" ∨ pa.date = "" ∨ pa.status = "") :
    handlePostClasses doc pc now writeOk
        = ⟨doc, .badRequest "id and name are required", [], false⟩
    ∧ handlePostStudents doc ps now writeOk
        = ⟨doc, .badRequest "id, name, and className are required", [], false⟩
    ∧ handlePostAttendance doc pa now writeOk
        = ⟨doc,
            .badRequest "id, studentId, studentName, className, prayer, date, and status are required",
            [], false⟩ := by
  refine ⟨?_, ?_, ?_⟩
  · rw [handlePostClasses, if_pos hc]
  · rw [handlePostStudents, if_pos hs]
  · rw [handlePostAttendance, if_pos ha]

/-- Witness for C7: an attendance payload without `status`, a class payload
without `id`, a student payload without `name`. -/
theorem upsert_validation_rejects_witness :
    ((⟨"", "Grade 5"⟩ : ClassPayload).id = "" ∨ (⟨"", "Grade 5"⟩ : ClassPayload).name = "")
    ∧ ((⟨"s1", "", "", "Grade 5"⟩ : StudentPayload).id = ""
        ∨ (⟨"s1", "", "", "Grade 5"⟩ : StudentPayload).name = ""
        ∨ (⟨"s1", "", "", "Grade 5"⟩ : StudentPayload).className = "")
    ∧ ((⟨"a1", "s1", "Amina", "Grade 5", "fajr", "2024-01-01", "", "", ""⟩ : AttPayload).id = ""
        ∨ (⟨"a1", "s1", "Amina", "Grade 5", "fajr", "2024-01-01", "", "", ""⟩ : AttPayload).studentId = ""
        ∨ (⟨"a1", "s1", "Amina", "Grade 5", "fajr", "2024-01-01", "", "", ""⟩ : AttPayload).studentName = ""
        ∨ (⟨"a1", "s1", "Amina", "Grade 5", "fajr", "2024-01-01", "", "", ""⟩ : AttPayload).className = ""
        ∨ (⟨"a1", "s1", "Amina", "Grade 5", "fajr", "2024-01-01", "", "", ""⟩ : AttPayload).prayer = ""
        ∨ (⟨"a1", "s1", "Amina", "Grade 5", "fajr", "2024-01-01", "", "", ""⟩ : AttPayload).date = ""
        ∨ (⟨"a1", "s1", "Amina", "Grade 5", "fajr", "2024-01-01", "", "", ""⟩ : AttPayload).status = "")
    ∧ (handlePostClasses ⟨[], [], []⟩ ⟨"", "Grade 5"⟩ "t1" true
          = ⟨⟨[], [], []⟩, .badRequest "id and name are required", [], false⟩
      ∧ handlePostStudents ⟨[], [], []⟩ ⟨"s1", "", "", "Grade 5"⟩ "t1" true
          = ⟨⟨[], [], []⟩, .badRequest "id, name, and className are required", [], false⟩
      ∧ handlePostAttendance ⟨[], [], []⟩
            ⟨"a1", "s1", "Amina", "Grade 5", "fajr", "2024-01-01", "", "", ""⟩ "t1" true
          = ⟨⟨[], [], []⟩,
              .badRequest "id, studentId, studentName, className, prayer, date, and status are required",
              [], false⟩) :=
  ⟨by decide, by decide, by decide,
    upsert_validation_rejects ⟨[], [], []⟩ "t1" true ⟨"", "Grade 5"⟩ ⟨"s1", "", "", "Grade 5"⟩
      ⟨"a1", "s1", "Amina", "Grade 5", "fajr", "2024-01-01", "", "", ""⟩
      (by decide) (by decide) (by decide)⟩

/-- C6 counterexample: when the durable write fails (`writeOk = false`), the
attendance upsert neither surfaces the failure nor suppresses the broadcast:
it still answers with the entity success response and still emits the
`attendance_updated` event (only the durable document stays unchanged). -/
theorem upsert_writeFailure_counterexample :
    (handlePostAttendance ⟨[], [], []⟩
        ⟨"a1", "s1", "Amina", "Grade 5", "fajr", "2024-01-01", "present", "", ""⟩
        "t1" false).broadcasts
      = [.attendanceUpdated
          (some ⟨"a1", "s1", "Amina", "Grade 5", "fajr", "2024-01-01", "present", none, "t1", "t1"⟩)
          "created"]
    ∧ (handlePostAttendance ⟨[], [], []⟩
        ⟨"a1", "s1", "Amina", "Grade 5", "fajr", "2024-01-01", "present", "", ""⟩
        "t1" false).response
      = .jsonAttendance
          (some ⟨"a1", "s1", "Amina", "Grade 5", "fajr", "2024-01-01", "present", none, "t1", "t1"⟩)
    ∧ (handlePostAttendance ⟨[], [], []⟩
        ⟨"a1", "s1", "Amina", "Grade 5", "fajr", "2024-01-01", "present", "", ""⟩
        "t1" false).durable = ⟨[], [], []⟩ := by
  decide

/-- C6 (amended): when the durable write fails, every mutating handler leaves
the durable document unchanged (a subsequent list sees the pre-attempt
state), but the failure is not surfaced — the caller still receives the
success response — and the broadcast event is still emitted. -/
theorem mutation_writeFailure (doc : Document) (pc : ClassPayload) (ps : StudentPayload)
    (pa : AttPayload) (now : String) (cid sid aid : String)
    (hc1 : pc.id ≠ "") (hc2 : pc.name ≠ "")
    (hs1 : ps.id ≠ "") (hs2 : ps.name ≠ "") (hs3 : ps.className ≠ "")
    (ha1 : pa.id ≠ "") (ha2 : pa.studentId ≠ "") (ha3 : pa.studentName ≠ "")
    (ha4 : pa.className ≠ "") (ha5 : pa.prayer ≠ "") (ha6 : pa.date ≠ "") (ha7 : pa.status ≠ "") :
    ((handlePostClasses doc pc now false).durable = doc
      ∧ ∃ c act, (handlePostClasses doc pc now false).response = .jsonClass (some c)
          ∧ (handlePostClasses doc pc now false).broadcasts = [.classUpdated (some c) act])
    ∧ ((handlePostStudents doc ps now false).durable = doc
      ∧ ∃ s act, (handlePostStudents doc ps now false).response = .jsonStudent (some s)
          ∧ (handlePostStudents doc ps now false).broadcasts = [.studentUpdated (some s) act])
    ∧ ((handlePostAttendance doc pa now false).durable = doc
      ∧ ∃ a act, (handlePostAttendance doc pa now false).response = .jsonAttendance (some a)
          ∧ (handlePostAttendance doc pa now false).broadcasts = [.attendanceUpdated (some a) act])
    ∧ handleDeleteClasses doc cid false = ⟨doc, .jsonSuccess, [.classDeleted cid], true⟩
    ∧ handleDeleteStudents doc sid false = ⟨doc, .jsonSuccess, [.studentDeleted sid], true⟩
    ∧ handleDeleteAttendance doc aid false = ⟨doc, .jsonSuccess, [.attendanceDeleted aid], true⟩
    ∧ handleGetAttendance (handlePostAttendance doc pa now false).durable none none none none
        = handleGetAttendance doc none none none none := by
  have hclass : (handlePostClasses doc pc now false).durable = doc
      ∧ ∃ c act, (handlePostClasses doc pc now false).response = .jsonClass (some c)
        ∧ (handlePostClasses doc pc now false).broadcasts = [.classUpdated (some c) act] := by
    rw [handlePostClasses, if_neg (by simp [hc1, hc2])]
    cases hfi : findIndexWith (fun c => c.id == pc.id) doc.classes with
    | none =>
      have hfind := findIndexWith_find?_append
        (y := (⟨pc.id, pc.name, now, now⟩ : Class)) (by simp) hfi
      exact ⟨rfl, ⟨pc.id, pc.name, now, now⟩, "created", by simp only [hfind], by simp only [hfind]⟩
    | some ix =>
      obtain ⟨i, old⟩ := ix
      have hfind := findIndexWith_find?_set
        (y := (⟨pc.id, pc.name, if old.createdAt = "" then now else old.createdAt, now⟩ : Class))
        (by simp) hfi
      exact ⟨rfl, ⟨pc.id, pc.name, if old.createdAt = "" then now else old.createdAt, now⟩,
        "updated", by simp only [hfind], by simp only [hfind]⟩
  have hstud : (handlePostStudents doc ps now false).durable = doc
      ∧ ∃ s act, (handlePostStudents doc ps now false).response = .jsonStudent (some s)
        ∧ (handlePostStudents doc ps now false).broadcasts = [.studentUpdated (some s) act] := by
    rw [handlePostStudents, if_neg (by simp [hs1, hs2, hs3])]
    cases hfi : findIndexWith (fun s => s.id == ps.id) doc.students with
    | none =>
      have hfind := findIndexWith_find?_append
        (y := (⟨ps.id, ps.name, if ps.rollNumber = "" then none else some ps.rollNumber,
          ps.className, now⟩ : Student)) (by simp) hfi
      exact ⟨rfl, ⟨ps.id, ps.name, if ps.rollNumber = "" then none else some ps.rollNumber,
        ps.className, now⟩, "created", by simp only [hfind], by simp only [hfind]⟩
    | some ix =>
      obtain ⟨i, old⟩ := ix
      have hfind := findIndexWith_find?_set
        (y := (⟨ps.id, ps.name, if ps.rollNumber = "" then none else some ps.rollNumber,
          ps.className, now⟩ : Student)) (by simp) hfi
      exact ⟨rfl, ⟨ps.id, ps.name, if ps.rollNumber = "" then none else some ps.rollNumber,
        ps.className, now⟩, "updated", by simp only [hfind], by simp only [hfind]⟩
  have hatt : (handlePostAttendance doc pa now false).durable = doc
      ∧ ∃ a act, (handlePostAttendance doc pa now false).response = .jsonAttendance (some a)
        ∧ (handlePostAttendance doc pa now false).broadcasts = [.attendanceUpdated (some a) act] := by
    rw [handlePostAttendance, if_neg (by simp [ha1, ha2, ha3, ha4, ha5, ha6, ha7])]
    cases hfi : findIndexWith (fun a => a.id == pa.id) doc.attendance with
    | none =>
      have hfind := findIndexWith_find?_append
        (y := (⟨pa.id, pa.studentId, pa.studentName, pa.className, pa.prayer, pa.date, pa.status,
          if pa.reason = "" then none else some pa.reason,
          if pa.timestamp = "" then now else pa.timestamp, now⟩ : Att)) (by simp) hfi
      exact ⟨rfl, ⟨pa.id, pa.studentId, pa.studentName, pa.className, pa.prayer, pa.date, pa.status,
        if pa.reason = "" then none else some pa.reason,
        if pa.timestamp = "" then now else pa.timestamp, now⟩,
        "created", by simp only [hfind], by simp only [hfind]⟩
    | some ix =>
      obtain ⟨i, old⟩ := ix
      have hfind := findIndexWith_find?_set
        (y := (⟨pa.id, pa.studentId, pa.studentName, pa.className, pa.prayer, pa.date, pa.status,
          if pa.reason = "" then none else some pa.reason,
          if pa.timestamp = "" then now else pa.timestamp, now⟩ : Att)) (by simp) hfi
      exact ⟨rfl, ⟨pa.id, pa.studentId, pa.studentName, pa.className, pa.prayer, pa.date, pa.status,
        if pa.reason = "" then none else some pa.reason,
        if pa.timestamp = "" then now else pa.timestamp, now⟩,
        "updated", by simp only [hfind], by simp only [hfind]⟩
  refine ⟨hclass, hstud, hatt, rfl, rfl, rfl, ?_⟩
  rw [hatt.1]

/-- Witness for C6 (amended) at a concrete document and payloads. -/
theorem mutation_writeFailure_witness :
    (⟨"c1", "Grade 5"⟩ : ClassPayload).id ≠ ""
    ∧ (⟨"c1", "Grade 5"⟩ : ClassPayload).name ≠ ""
    ∧ (⟨"s1", "Amina", "", "Grade 5"⟩ : StudentPayload).id ≠ ""
    ∧ (⟨"s1", "Amina", "", "Grade 5"⟩ : StudentPayload).name ≠ ""
    ∧ (⟨"s1", "Amina", "", "Grade 5"⟩ : StudentPayload).className ≠ ""
    ∧ (⟨"a1", "s1", "Amina", "Grade 5", "fajr", "2024-01-01", "present", "", ""⟩ : AttPayload).id ≠ ""
    ∧ (⟨"a1", "s1", "Amina", "Grade 5", "fajr", "2024-01-01", "present", "", ""⟩ : AttPayload).studentId ≠ ""
    ∧ (⟨"a1", "s1", "Amina", "Grade 5", "fajr", "2024-01-01", "present", "", ""⟩ : AttPayload).studentName ≠ ""
    ∧ (⟨"a1", "s1", "Amina", "Grade 5", "fajr", "2024-01-01", "present", "", ""⟩ : AttPayload).className ≠ ""
    ∧ (⟨"a1", "s1", "Amina", "Grade 5", "fajr", "2024-01-01", "present", "", ""⟩ : AttPayload).prayer ≠ ""
    ∧ (⟨"a1", "s1", "Amina", "Grade 5", "fajr", "2024-01-01", "present", "", ""⟩ : AttPayload).date ≠ ""
    ∧ (⟨"a1", "s1", "Amina", "Grade 5", "fajr", "2024-01-01", "present", "", ""⟩ : AttPayload).status ≠ ""
    ∧ (((handlePostClasses ⟨[], [], []⟩ ⟨"c1", "Grade 5"⟩ "t1" false).durable = ⟨[], [], []⟩
        ∧ ∃ c act, (handlePostClasses ⟨[], [], []⟩ ⟨"c1", "Grade 5"⟩ "t1" false).response
              = .jsonClass (some c)
            ∧ (handlePostClasses ⟨[], [], []⟩ ⟨"c1", "Grade 5"⟩ "t1" false).broadcasts
              = [.classUpdated (some c) act])
      ∧ ((handlePostStudents ⟨[], [], []⟩ ⟨"s1", "Amina", "", "Grade 5"⟩ "t1" false).durable
            = ⟨[], [], []⟩
        ∧ ∃ s act, (handlePostStudents ⟨[], [], []⟩ ⟨"s1", "Amina", "", "Grade 5"⟩ "t1"
              false).response = .jsonStudent (some s)
            ∧ (handlePostStudents ⟨[], [], []⟩ ⟨"s1", "Amina", "", "Grade 5"⟩ "t1"
              false).broadcasts = [.studentUpdated (some s) act])
      ∧ ((handlePostAttendance ⟨[], [], []⟩
            ⟨"a1", "s1", "Amina", "Grade 5", "fajr", "2024-01-01", "present", "", ""⟩ "t1"
            false).durable = ⟨[], [], []⟩
        ∧ ∃ a act, (handlePostAttendance ⟨[], [], []⟩
              ⟨"a1", "s1", "Amina", "Grade 5", "fajr", "2024-01-01", "present", "", ""⟩ "t1"
              false).response = .jsonAttendance (some a)
            ∧ (handlePostAttendance ⟨[], [], []⟩
              ⟨"a1", "s1", "Amina", "Grade 5", "fajr", "2024-01-01", "present", "", ""⟩ "t1"
              false).broadcasts = [.attendanceUpdated (some a) act])
      ∧ handleDeleteClasses ⟨[], [], []⟩ "c9" false
          = ⟨⟨[], [], []⟩, .jsonSuccess, [.classDeleted "c9"], true⟩
      ∧ handleDeleteStudents ⟨[], [], []⟩ "s9" false
          = ⟨⟨[], [], []⟩, .jsonSuccess, [.studentDeleted "s9"], true⟩
      ∧ handleDeleteAttendance ⟨[], [], []⟩ "a9" false
          = ⟨⟨[], [], []⟩, .jsonSuccess, [.attendanceDeleted "a9"], true⟩
      ∧ handleGetAttendance (handlePostAttendance ⟨[], [], []⟩
            ⟨"a1", "s1", "Amina", "Grade 5", "fajr", "2024-01-01", "present", "", ""⟩ "t1"
            false).durable none none none none
          = handleGetAttendance ⟨[], [], []⟩ none none none none) :=
  ⟨by decide, by decide, by decide, by decide, by decide, by decide, by decide, by decide,
    by decide, by decide, by decide, by decide,
    mutation_writeFailure ⟨[], [], []⟩ ⟨"c1", "Grade 5"⟩ ⟨"s1", "Amina", "", "Grade 5"⟩
      ⟨"a1", "s1", "Amina", "Grade 5", "fajr", "2024-01-01", "present", "", ""⟩ "t1"
      "c9" "s9" "a9" (by decide) (by decide) (by decide) (by decide) (by decide) (by decide)
      (by decide) (by decide) (by decide) (by decide) (by decide) (by decide)⟩

/-- C10 counterexample: deleting student id "s1", which matches no student,
still reports success and broadcasts, but the document does change — the
orphaned attendance row whose `studentId` is "s1" is removed by the cascade
filter even though no student entity was deleted. -/
theorem deleteStudent_missing_counterexample :
    (⟨[], [],
        [⟨"a1", "s1", "Amina", "Grade 5", "fajr", "2024-01-01", "present", none, "t0", "t0"⟩]⟩
      : Document).students = []
    ∧ (handleDeleteStudents ⟨[], [],
        [⟨"a1", "s1", "Amina", "Grade 5", "fajr", "2024-01-01", "present", none, "t0", "t0"⟩]⟩
        "s1" true).response = .jsonSuccess
    ∧ (handleDeleteStudents ⟨[], [],
        [⟨"a1", "s1", "Amina", "Grade 5", "fajr", "2024-01-01", "present", none, "t0", "t0"⟩]⟩
        "s1" true).broadcasts = [.studentDeleted "s1"]
    ∧ (handleDeleteStudents ⟨[], [],
        [⟨"a1", "s1", "Amina", "Grade 5", "fajr", "2024-01-01", "present", none, "t0", "t0"⟩]⟩
        "s1" true).durable
      ≠ ⟨[], [],
          [⟨"a1", "s1", "Amina", "Grade 5", "fajr", "2024-01-01", "present", none, "t0", "t0"⟩]⟩ := by
  decide

/-- C10 (amended): deleting an id with no matching entity still reports
success and still broadcasts the deleted event carrying that id; for class
and attendance deletes the document is fully unchanged, while a student
delete additionally removes any orphaned attendance records whose
`studentId` equals the deleted id, and nothing else. -/
theorem delete_missing_id (doc : Document) (cid sid aid : String)
    (hc : ∀ c ∈ doc.classes, c.id ≠ cid)
    (hs : ∀ s ∈ doc.students, s.id ≠ sid)
    (ha : ∀ a ∈ doc.attendance, a.id ≠ aid) :
    handleDeleteClasses doc cid true = ⟨doc, .jsonSuccess, [.classDeleted cid], true⟩
    ∧ (handleDeleteStudents doc sid true).durable
        = ⟨doc.classes, doc.students, doc.attendance.filter (fun a => a.studentId != sid)⟩
    ∧ (handleDeleteStudents doc sid true).response = .jsonSuccess
    ∧ (handleDeleteStudents doc sid true).broadcasts = [.studentDeleted sid]
    ∧ handleDeleteAttendance doc aid true = ⟨doc, .jsonSuccess, [.attendanceDeleted aid], true⟩ := by
  refine ⟨?_, ?_, rfl, rfl, ?_⟩
  · have hfind : doc.classes.find? (fun c => c.id == cid) = none :=
      List.find?_eq_none.mpr (fun c hcm => by simp [hc c hcm])
    have hfil : doc.classes.filter (fun c => c.id != cid) = doc.classes :=
      List.filter_eq_self.mpr (fun c hcm => by simp [hc c hcm])
    rw [handleDeleteClasses, hfind, hfil]
    rfl
  · have hfil : doc.students.filter (fun s => s.id != sid) = doc.students :=
      List.filter_eq_self.mpr (fun s hsm => by simp [hs s hsm])
    rw [handleDeleteStudents, hfil]
    rfl
  · have hfil : doc.attendance.filter (fun a => a.id != aid) = doc.attendance :=
      List.filter_eq_self.mpr (fun a ham => by simp [ha a ham])
    rw [handleDeleteAttendance, hfil]
    rfl

/-- Witness for C10 (amended) at a concrete document with an orphaned
attendance row. -/
theorem delete_missing_id_witness :
    (∀ c ∈ (⟨[⟨"c1", "Grade 5", "t0", "t0"⟩], [],
        [⟨"a1", "s1", "Amina", "Grade 5", "fajr", "2024-01-01", "present", none, "t0", "t0"⟩]⟩
        : Document).classes, c.id ≠ "c9")
    ∧ (∀ s ∈ (⟨[⟨"c1", "Grade 5", "t0", "t0"⟩], [],
        [⟨"a1", "s1", "Amina", "Grade 5", "fajr", "2024-01-01", "present", none, "t0", "t0"⟩]⟩
        : Document).students, s.id ≠ "s1")
    ∧ (∀ a ∈ (⟨[⟨"c1", "Grade 5", "t0", "t0"⟩], [],
        [⟨"a1", "s1", "Amina", "Grade 5", "fajr", "2024-01-01", "present", none, "t0", "t0"⟩]⟩
        : Document).attendance, a.id ≠ "a9")
    ∧ (handleDeleteClasses ⟨[⟨"c1", "Grade 5", "t0", "t0"⟩], [],
          [⟨"a1", "s1", "Amina", "Grade 5", "fajr", "2024-01-01", "present", none, "t0", "t0"⟩]⟩
          "c9" true
        = ⟨⟨[⟨"c1", "Grade 5", "t0", "t0"⟩], [],
            [⟨"a1", "s1", "Amina", "Grade 5", "fajr", "2024-01-01", "present", none, "t0", "t0"⟩]⟩,
            .jsonSuccess, [.classDeleted "c9"], true⟩
      ∧ (handleDeleteStudents ⟨[⟨"c1", "Grade 5", "t0", "t0"⟩], [],
          [⟨"a1", "s1", "Amina", "Grade 5", "fajr", "2024-01-01", "present", none, "t0", "t0"⟩]⟩
          "s1" true).durable
        = ⟨(⟨[⟨"c1", "Grade 5", "t0", "t0"⟩], [],
            [⟨"a1", "s1", "Amina", "Grade 5", "fajr", "2024-01-01", "present", none, "t0", "t0"⟩]⟩
            : Document).classes,
           (⟨[⟨"c1", "Grade 5", "t0", "t0"⟩], [],
            [⟨"a1", "s1", "Amina", "Grade 5", "fajr", "2024-01-01", "present", none, "t0", "t0"⟩]⟩
            : Document).students,
           (⟨[⟨"c1", "Grade 5", "t0", "t0"⟩], [],
            [⟨"a1", "s1", "Amina", "Grade 5", "fajr", "2024-01-01", "present", none, "t0", "t0"⟩]⟩
            : Document).attendance.filter (fun a => a.studentId != "s1")⟩
      ∧ (handleDeleteStudents ⟨[⟨"c1", "Grade 5", "t0", "t0"⟩], [],
          [⟨"a1", "s1", "Amina", "Grade 5", "fajr", "2024-01-01", "present", none, "t0", "t0"⟩]⟩
          "s1" true).response = .jsonSuccess
      ∧ (handleDeleteStudents ⟨[⟨"c1", "Grade 5", "t0", "t0"⟩], [],
          [⟨"a1", "s1", "Amina", "Grade 5", "fajr", "2024-01-01", "present", none, "t0", "t0"⟩]⟩
          "s1" true).broadcasts = [.studentDeleted "s1"]
      ∧ handleDeleteAttendance ⟨[⟨"c1", "Grade 5", "t0", "t0"⟩], [],
          [⟨"a1", "s1", "Amina", "Grade 5", "fajr", "2024-01-01", "present", none, "t0", "t0"⟩]⟩
          "a9" true
        = ⟨⟨[⟨"c1", "Grade 5", "t0", "t0"⟩], [],
            [⟨"a1", "s1", "Amina", "Grade 5", "fajr", "2024-01-01", "present", none, "t0", "t0"⟩]⟩,
            .jsonSuccess, [.attendanceDeleted "a9"], true⟩) :=
  ⟨by decide, by decide, by decide,
    delete_missing_id ⟨[⟨"c1", "Grade 5", "t0", "t0"⟩], [],
      [⟨"a1", "s1", "Amina", "Grade 5", "fajr", "2024-01-01", "present", none, "t0", "t0"⟩]⟩
      "c9" "s1" "a9" (by decide) (by decide) (by decide)⟩

/-- C8: `broadcast` serializes the message once and sends that identical
string to every open handle in the set at publish time; a non-live handle
sitting in the set changes nothing about the deliveries to the others, and
a handle absent from the set (unregistered) simply receives nothing while
every remaining open handle still gets its delivery — `broadcast` is a total
function, so no error reaches the publisher. -/
theorem broadcast_uniform_delivery (l₁ l₂ : List ClientH) (c : ClientH) (m : Message)
    (hc : c.readyState ≠ 1) :
    (broadcast (l₁ ++ c :: l₂) m).2 = (broadcast (l₁ ++ l₂) m).2
    ∧ (∀ x ∈ (broadcast (l₁ ++ l₂) m).2, x.2 = serialize m)
    ∧ (∀ d ∈ l₁ ++ l₂, d.readyState = 1 → (d.cid, serialize m) ∈ (broadcast (l₁ ++ l₂) m).2) := by
  refine ⟨?_, ?_, ?_⟩
  · show ((l₁ ++ c :: l₂).filter (fun k => k.readyState == 1)).map (fun k => (k.cid, serialize m))
        = ((l₁ ++ l₂).filter (fun k => k.readyState == 1)).map (fun k => (k.cid, serialize m))
    rw [List.filter_append, List.filter_append, List.filter_cons]
    simp [hc]
  · intro x hx
    obtain ⟨d, _, rfl⟩ := List.mem_map.mp hx
    rfl
  · intro d hd hopen
    exact List.mem_map.mpr ⟨d, List.mem_filter.mpr ⟨hd, by simp [hopen]⟩, rfl⟩

/-- Witness for C8 with two open subscribers and one closed one. -/
theorem broadcast_uniform_delivery_witness :
    (⟨2, 3⟩ : ClientH).readyState ≠ 1
    ∧ ((broadcast ([⟨1, 1⟩] ++ (⟨2, 3⟩ : ClientH) :: [⟨3, 1⟩]) (.classDeleted "c1")).2
        = (broadcast ([⟨1, 1⟩] ++ [⟨3, 1⟩]) (.classDeleted "c1")).2
      ∧ (∀ x ∈ (broadcast ([⟨1, 1⟩] ++ [⟨3, 1⟩]) (.classDeleted "c1")).2,
          x.2 = serialize (.classDeleted "c1"))
      ∧ (∀ d ∈ [⟨1, 1⟩] ++ [(⟨3, 1⟩ : ClientH)], d.readyState = 1 →
          (d.cid, serialize (.classDeleted "c1"))
            ∈ (broadcast ([⟨1, 1⟩] ++ [⟨3, 1⟩]) (.classDeleted "c1")).2)) :=
  ⟨by decide, broadcast_uniform_delivery [⟨1, 1⟩] [⟨3, 1⟩] ⟨2, 3⟩ (.classDeleted "c1") (by decide)⟩

/-- C9 counterexample: a handle that is non-live at publish time is NOT
unregistered by `broadcast` — the client set after the publish still
contains the closed handle (readyState 3); it merely receives no delivery. -/
theorem broadcast_no_unregister_counterexample :
    (broadcast [⟨1, 1⟩, ⟨2, 3⟩] (.classDeleted "c1")).1 = [⟨1, 1⟩, ⟨2, 3⟩]
    ∧ (⟨2, 3⟩ : ClientH) ∈ (broadcast [⟨1, 1⟩, ⟨2, 3⟩] (.classDeleted "c1")).1
    ∧ ∀ x ∈ (broadcast [⟨1, 1⟩, ⟨2, 3⟩] (.classDeleted "c1")).2, x.1 ≠ 2 := by
  decide

/-- C9 (amended): a handle found non-live at publish time is skipped — it
receives no delivery — but stays registered (`broadcast` leaves the client
set unchanged); delivery to the remaining open handles continues.  The
handle is removed from the set only when its own close event fires
(`onClose`). -/
theorem broadcast_nonlive_skipped (l₁ l₂ : List ClientH) (c : ClientH) (m : Message)
    (hc : c.readyState ≠ 1) (hnl : c ∉ l₁)
    (hcid : ∀ d ∈ l₁ ++ l₂, d.cid ≠ c.cid) :
    (broadcast (l₁ ++ c :: l₂) m).1 = l₁ ++ c :: l₂
    ∧ (∀ x ∈ (broadcast (l₁ ++ c :: l₂) m).2, x.1 ≠ c.cid)
    ∧ (∀ d ∈ l₁ ++ l₂, d.readyState = 1 →
        (d.cid, serialize m) ∈ (broadcast (l₁ ++ c :: l₂) m).2)
    ∧ onClose (l₁ ++ c :: l₂) c = l₁ ++ l₂ := by
  refine ⟨rfl, ?_, ?_, ?_⟩
  · intro x hx
    obtain ⟨d, hd, rfl⟩ := List.mem_map.mp hx
    obtain ⟨hdm, hdo⟩ := List.mem_filter.mp hd
    rcases List.mem_append.mp hdm with hd₁ | hd₂
    · exact hcid d (List.mem_append.mpr (Or.inl hd₁))
    · rcases List.mem_cons.mp hd₂ with rfl | hd₂'
      · exact absurd (by simpa using hdo) hc
      · exact hcid d (List.mem_append.mpr (Or.inr hd₂'))
  · intro d hd hopen
    refine List.mem_map.mpr ⟨d, List.mem_filter.mpr ⟨?_, by simp [hopen]⟩, rfl⟩
    rcases List.mem_append.mp hd with hd₁ | hd₂
    · exact List.mem_append.mpr (Or.inl hd₁)
    · exact List.mem_append.mpr (Or.inr (List.mem_cons_of_mem c hd₂))
  · show (l₁ ++ c :: l₂).erase c = l₁ ++ l₂
    rw [List.erase_append_right _ hnl, List.erase_cons_head]

/-- Witness for C9 (amended) with one open and one closed subscriber. -/
theorem broadcast_nonlive_skipped_witness :
    (⟨2, 3⟩ : ClientH).readyState ≠ 1
    ∧ (⟨2, 3⟩ : ClientH) ∉ [(⟨1, 1⟩ : ClientH)]
    ∧ (∀ d ∈ [(⟨1, 1⟩ : ClientH)] ++ [(⟨3, 1⟩ : ClientH)], d.cid ≠ (⟨2, 3⟩ : ClientH).cid)
    ∧ ((broadcast ([⟨1, 1⟩] ++ (⟨2, 3⟩ : ClientH) :: [⟨3, 1⟩]) (.classDeleted "c1")).1
          = [⟨1, 1⟩] ++ (⟨2, 3⟩ : ClientH) :: [⟨3, 1⟩]
      ∧ (∀ x ∈ (broadcast ([⟨1, 1⟩] ++ (⟨2, 3⟩ : ClientH) :: [⟨3, 1⟩]) (.classDeleted "c1")).2,
          x.1 ≠ (⟨2, 3⟩ : ClientH).cid)
      ∧ (∀ d ∈ [(⟨1, 1⟩ : ClientH)] ++ [(⟨3, 1⟩ : ClientH)], d.readyState = 1 →
          (d.cid, serialize (.classDeleted "c1"))
            ∈ (broadcast ([⟨1, 1⟩] ++ (⟨2, 3⟩ : ClientH) :: [⟨3, 1⟩]) (.classDeleted "c1")).2)
      ∧ onClose ([⟨1, 1⟩] ++ (⟨2, 3⟩ : ClientH) :: [⟨3, 1⟩]) ⟨2, 3⟩ = [⟨1, 1⟩] ++ [⟨3, 1⟩]) :=
  ⟨by decide, by decide, by decide,
    broadcast_nonlive_skipped [⟨1, 1⟩] [⟨3, 1⟩] ⟨2, 3⟩ (.classDeleted "c1")
      (by decide) (by decide) (by decide)⟩

/-! ### The spec-side description of the summary grouping (for the C5
refinement): keys in insertion order of first appearance, each group the
order-preserving filter of the input. -/

/-- The distinct values of a list in order of first appearance — the key
order the spec prescribes for the summary mapping. -/
def firstOccurrences (l : List String) : List String :=
  l.foldl (fun acc d => if d ∈ acc then acc else acc ++ [d]) []

/-- Grouping "by prayer, preserving each record in its original relative
order", stated as the spec words it: one entry per distinct prayer in first
appearance order, holding the order-preserving filter. -/
def groupByPrayer (xs : List Att) : List (String × List Att) :=
  (firstOccurrences (xs.map (fun t => t.prayer))).map
    (fun p => (p, xs.filter (fun t => t.prayer == p)))

/-- The spec's description of `summarize`: group first by date (insertion
order of first appearance), then by prayer, preserving relative order. -/
def summarySpec (l : List Att) : Summary :=
  (firstOccurrences (l.map (fun t => t.date))).map
    (fun d => (d, groupByPrayer (l.filter (fun t => t.date == d))))

theorem foldl_firstOcc_mem (y : String) :
    ∀ (l : List String) (acc : List String),
      (y ∈ l.foldl (fun acc d => if d ∈ acc then acc else acc ++ [d]) acc)
        ↔ y ∈ acc ∨ y ∈ l := by
  intro l
  induction l with
  | nil => intro acc; simp
  | cons a t ih =>
    intro acc
    rw [List.foldl_cons, ih]
    by_cases hm : a ∈ acc
    · rw [if_pos hm]
      simp only [List.mem_cons]
      constructor
      · rintro (h | h)
        · exact Or.inl h
        · exact Or.inr (Or.inr h)
      · rintro (h | h | h)
        · exact Or.inl h
        · exact Or.inl (by rw [h]; exact hm)
        · exact Or.inr h
    · rw [if_neg hm]
      simp only [List.mem_append, List.mem_cons, List.not_mem_nil, or_false]
      exact or_assoc

theorem foldl_firstOcc_nodup :
    ∀ (l : List String) (acc : List String), acc.Nodup →
      (l.foldl (fun acc d => if d ∈ acc then acc else acc ++ [d]) acc).Nodup := by
  intro l
  induction l with
  | nil => intro acc h; simpa using h
  | cons a t ih =>
    intro acc h
    rw [List.foldl_cons]
    by_cases hm : a ∈ acc
    · rw [if_pos hm]; exact ih acc h
    · rw [if_neg hm]
      refine ih _ ?_
      simp [List.nodup_append, h, hm]

theorem mem_firstOccurrences {y : String} {l : List String} :
    y ∈ firstOccurrences l ↔ y ∈ l := by
  rw [firstOccurrences, foldl_firstOcc_mem]
  simp

theorem nodup_firstOccurrences (l : List String) : (firstOccurrences l).Nodup :=
  foldl_firstOcc_nodup l [] List.nodup_nil

theorem firstOccurrences_append (l : List String) (d : String) :
    firstOccurrences (l ++ [d])
      = if d ∈ firstOccurrences l then firstOccurrences l
        else firstOccurrences l ++ [d] := by
  rw [firstOccurrences, List.foldl_append]
  rfl

theorem updateAssoc_map_of_mem {β : Type} (dflt : β) (f : β → β) (g : String → β) :
    ∀ {ks : List String} {k : String}, ks.Nodup → k ∈ ks →
      updateAssoc k dflt f (ks.map (fun d => (d, g d)))
        = ks.map (fun d => (d, if d = k then f (g d) else g d)) := by
  intro ks
  induction ks with
  | nil => intro k _ hk; exact absurd hk (List.not_mem_nil k)
  | cons a t ih =>
    intro k hnd hk
    rw [List.map_cons, updateAssoc, List.map_cons]
    by_cases hak : a = k
    · subst hak
      have hnt : a ∉ t := (List.nodup_cons.mp hnd).1
      rw [if_pos rfl, if_pos rfl]
      congr 1
      refine (List.map_congr_left (fun d hd => ?_)).symm
      have hda : ¬ d = a := fun h => hnt (h ▸ hd)
      rw [if_neg hda]
    · rw [if_neg hak, if_neg hak]
      congr 1
      exact ih (List.nodup_cons.mp hnd).2
        ((List.mem_cons.mp hk).resolve_left (fun h => hak h.symm))

theorem updateAssoc_map_of_not_mem {β : Type} (dflt : β) (f : β → β) (g : String → β) :
    ∀ {ks : List String} {k : String}, k ∉ ks →
      updateAssoc k dflt f (ks.map (fun d => (d, g d)))
        = ks.map (fun d => (d, g d)) ++ [(k, f dflt)] := by
  intro ks
  induction ks with
  | nil => intro k _; rfl
  | cons a t ih =>
    intro k hk
    have hak : ¬ a = k := fun h => hk (h ▸ List.mem_cons_self a t)
    rw [List.map_cons, updateAssoc, if_neg hak,
      ih (fun h => hk (List.mem_cons_of_mem a h))]
    rfl

theorem groupByPrayer_append (xs : List Att) (r : Att) :
    groupByPrayer (xs ++ [r])
      = updateAssoc r.prayer [] (fun recs => recs ++ [r]) (groupByPrayer xs) := by
  have hmapapp : (xs ++ [r]).map (fun t => t.prayer)
      = xs.map (fun t => t.prayer) ++ [r.prayer] := by simp
  by_cases hm : r.prayer ∈ xs.map (fun t => t.prayer)
  · have hkeys : firstOccurrences ((xs ++ [r]).map (fun t => t.prayer))
        = firstOccurrences (xs.map (fun t => t.prayer)) := by
      rw [hmapapp, firstOccurrences_append, if_pos (mem_firstOccurrences.mpr hm)]
    rw [groupByPrayer, groupByPrayer, hkeys,
      updateAssoc_map_of_mem _ _ _ (nodup_firstOccurrences _) (mem_firstOccurrences.mpr hm)]
    refine List.map_congr_left (fun p hp => ?_)
    dsimp only
    by_cases hpr : p = r.prayer
    · subst hpr
      rw [if_pos rfl]
      simp [List.filter_append]
    · rw [if_neg hpr]
      have hrp : r.prayer ≠ p := fun h => hpr h.symm
      simp [List.filter_append, hrp]
  · have hnm : r.prayer ∉ firstOccurrences (xs.map (fun t => t.prayer)) :=
      fun h => hm (mem_firstOccurrences.mp h)
    rw [groupByPrayer, groupByPrayer, hmapapp, firstOccurrences_append, if_neg hnm,
      updateAssoc_map_of_not_mem _ _ _ hnm, List.map_append]
    congr 1
    · refine List.map_congr_left (fun p hp => ?_)
      dsimp only
      have hrp : r.prayer ≠ p := fun h => hnm (h ▸ hp)
      simp [List.filter_append, hrp]
    · have hnil : xs.filter (fun t => t.prayer == r.prayer) = [] := by
        rw [List.filter_eq_nil_iff]
        intro a ha hq
        refine hm ?_
        have haq : a.prayer = r.prayer := by simpa using hq
        exact haq ▸ List.mem_map_of_mem (fun t => t.prayer) ha
      simp [List.filter_append, hnil]

theorem summarySpec_append (l : List Att) (r : Att) :
    summarySpec (l ++ [r]) = addToSummary (summarySpec l) r := by
  have hmapapp : (l ++ [r]).map (fun t => t.date)
      = l.map (fun t => t.date) ++ [r.date] := by simp
  rw [addToSummary]
  by_cases hm : r.date ∈ l.map (fun t => t.date)
  · have hkeys : firstOccurrences ((l ++ [r]).map (fun t => t.date))
        = firstOccurrences (l.map (fun t => t.date)) := by
      rw [hmapapp, firstOccurrences_append, if_pos (mem_firstOccurrences.mpr hm)]
    rw [summarySpec, summarySpec, hkeys,
      updateAssoc_map_of_mem _ _ _ (nodup_firstOccurrences _) (mem_firstOccurrences.mpr hm)]
    refine List.map_congr_left (fun d hd => ?_)
    dsimp only
    by_cases hdr : d = r.date
    · subst hdr
      rw [if_pos rfl, List.filter_append]
      have hone : [r].filter (fun t => t.date == r.date) = [r] := by simp
      rw [hone, groupByPrayer_append]
    · rw [if_neg hdr, List.filter_append]
      have hrd : r.date ≠ d := fun h => hdr h.symm
      have hzero : [r].filter (fun t => t.date == d) = [] := by simp [hrd]
      rw [hzero, List.append_nil]
  · have hnm : r.date ∉ firstOccurrences (l.map (fun t => t.date)) :=
      fun h => hm (mem_firstOccurrences.mp h)
    rw [summarySpec, summarySpec, hmapapp, firstOccurrences_append, if_neg hnm,
      updateAssoc_map_of_not_mem _ _ _ hnm, List.map_append]
    congr 1
    · refine List.map_congr_left (fun d hd => ?_)
      dsimp only
      have hrd : r.date ≠ d := fun h => hnm (h ▸ hd)
      rw [List.filter_append]
      have hzero : [r].filter (fun t => t.date == d) = [] := by simp [hrd]
      rw [hzero, List.append_nil]
    · have hnil : l.filter (fun t => t.date == r.date) = [] := by
        rw [List.filter_eq_nil_iff]
        intro a ha hq
        refine hm ?_
        have haq : a.date = r.date := by simpa using hq
        exact haq ▸ List.mem_map_of_mem (fun t => t.date) ha
      have hfil : (l ++ [r]).filter (fun t => t.date == r.date) = [r] := by
        rw [List.filter_append, hnil]
        simp
      simp only [List.map_cons, List.map_nil]
      rw [hfil]
      simp [groupByPrayer, firstOccurrences, updateAssoc]

/-- C5: the summary loop implements the spec's grouping: first by date in
insertion order of first appearance, then by prayer, each group the
order-preserving filter of the input; the summary endpoint is that grouping
of its filtered attendance list; and the spec's three-record example comes
out as stated. -/
theorem summarize_matches_spec :
    (∀ l : List Att, summarize l = summarySpec l)
    ∧ (∀ (doc : Document) (date className : Option String),
        handleGetSummary doc date className
          = summarySpec (queryFilter className (fun s a => a.className == s)
              (queryFilter date (fun s a => a.date == s) doc.attendance)))
    ∧ summarize
        [⟨"r1", "s1", "Amina", "Grade 5", "fajr", "2024-01-01", "present", none, "t", "t"⟩,
         ⟨"r2", "s2", "Bilal", "Grade 5", "fajr", "2024-01-01", "absent", none, "t", "t"⟩,
         ⟨"r3", "s1", "Amina", "Grade 5", "dhuhr", "2024-01-02", "present", none, "t", "t"⟩]
      = [("2024-01-01",
          [("fajr",
            [⟨"r1", "s1", "Amina", "Grade 5", "fajr", "2024-01-01", "present", none, "t", "t"⟩,
             ⟨"r2", "s2", "Bilal", "Grade 5", "fajr", "2024-01-01", "absent", none, "t", "t"⟩])]),
         ("2024-01-02",
          [("dhuhr",
            [⟨"r3", "s1", "Amina", "Grade 5", "dhuhr", "2024-01-02", "present", none, "t", "t"⟩])])] := by
  have main : ∀ l : List Att, summarize l = summarySpec l := by
    intro l
    induction l using List.reverseRecOn with
    | nil => rfl
    | append_singleton t r ih =>
      rw [summarize, List.foldl_append, List.foldl_cons, List.foldl_nil, ← summarize, ih,
        summarySpec_append]
  refine ⟨main, fun doc date className => main _, ?_⟩
  decide

end CaliphAttendance
